import Mathlib

/-!
Verification of the `rust-mock` example library (`src/lib.rs`).

The library defines:
* a trait `I32Calculator` with four methods `add`, `subtract`, `multiply`,
  `divide`, each taking two `i32` arguments and returning an `i32`;
* `ExternalI32Calculator`, whose every method panics;
* `Application`, holding a boxed `I32Calculator`, with the method
  `cool_algorithm` that sequences `add(x,0)`, `subtract(_,0)`,
  `multiply(_,1)`, `divide(_,1)` and returns the final output;
* a unit test that drives `cool_algorithm(100)` against a `mockall`
  mock of the trait.

We embed `i32` as `Int` with explicit range bounds.  A calculator
implementation may be stateful (the mock consumes expectations) and may
fail fatally (panic / unexpected call), so a calculator over an internal
state type `σ` has methods of type `σ → Int → Int → Option (Int × σ)`;
`none` models a panic or test failure, `some (r, s)` a returned value
and updated internal state.
-/

/-- Smallest `i32` value, `-2^31`. -/
def i32Min : Int := -(2 ^ 31)

/-- Largest `i32` value, `2^31 - 1`. -/
def i32Max : Int := 2 ^ 31 - 1

/-- `x` is representable as an `i32`. -/
def inI32 (x : Int) : Prop := i32Min ≤ x ∧ x ≤ i32Max

instance (x : Int) : Decidable (inI32 x) := by
  unfold inI32; infer_instance

/-- Embedding of the Rust trait `I32Calculator` (src/lib.rs lines 74-83).
An implementation carries an internal state of type `σ`; each method
takes the state and the two `i32` arguments and either returns a value
with an updated state, or fails fatally (`none`, modelling a panic or a
mock "unexpected call" abort). -/
structure I32Calculator (σ : Type) where
  add : σ → Int → Int → Option (Int × σ)
  subtract : σ → Int → Int → Option (Int × σ)
  multiply : σ → Int → Int → Option (Int × σ)
  divide : σ → Int → Int → Option (Int × σ)

/-- Embedding of the Rust struct `Application` (src/lib.rs lines 109-111):
it holds one implementation of the calculator interface. -/
structure Application (σ : Type) where
  i32_calculator : I32Calculator σ

/-- Embedding of `Application::cool_algorithm` (src/lib.rs lines 117-126):

    let mut output = x;
    output = self.i32_calculator.add(output, 0);
    output = self.i32_calculator.subtract(output, 0);
    output = self.i32_calculator.multiply(output, 1);
    output = self.i32_calculator.divide(output, 1);
    output

The calculator's internal state `s` is threaded through the four calls;
a fatal failure in any call aborts the whole computation. -/
def Application.cool_algorithm (app : Application σ) (x : Int) (s : σ) :
    Option (Int × σ) := do
  let output := x
  let (output, s) ← app.i32_calculator.add s output 0
  let (output, s) ← app.i32_calculator.subtract s output 0
  let (output, s) ← app.i32_calculator.multiply s output 1
  let (output, s) ← app.i32_calculator.divide s output 1
  pure (output, s)

/-- Rust `i32` checked addition: the sum when it is representable,
`none` (overflow panic) otherwise. -/
def checkedAdd (x y : Int) : Option Int :=
  if inI32 (x + y) then some (x + y) else none

/-- Rust `i32` checked subtraction. -/
def checkedSub (x y : Int) : Option Int :=
  if inI32 (x - y) then some (x - y) else none

/-- Rust `i32` checked multiplication. -/
def checkedMul (x y : Int) : Option Int :=
  if inI32 (x * y) then some (x * y) else none

/-- Rust `i32` checked division: truncated (toward-zero) quotient;
fails on division by zero and on the single overflow case
`i32::MIN / -1`. -/
def checkedDiv (x y : Int) : Option Int :=
  if y = 0 then none
  else if x = i32Min ∧ y = -1 then none
  else some (Int.tdiv x y)

/-- A calculator that computes true `i32` arithmetic: each method is the
corresponding checked arithmetic operation; it keeps no internal state. -/
def trueI32Calculator : I32Calculator Unit where
  add s x y := (checkedAdd x y).map (fun r => (r, s))
  subtract s x y := (checkedSub x y).map (fun r => (r, s))
  multiply s x y := (checkedMul x y).map (fun r => (r, s))
  divide s x y := (checkedDiv x y).map (fun r => (r, s))

/-- Embedding of `ExternalI32Calculator` (src/lib.rs lines 88-105): every
method panics with "Can't call this in unit tests!", i.e. never returns
a value. -/
def ExternalI32Calculator : I32Calculator Unit where
  add _ _ _ := none
  subtract _ _ _ := none
  multiply _ _ _ := none
  divide _ _ _ := none

/-- The four methods of the calculator interface, used to record call
traces. -/
inductive Method
  | add
  | subtract
  | multiply
  | divide
deriving DecidableEq, Repr

/-- One observed call into a calculator: the method, the two arguments,
and the value it returned. -/
structure CallEvent where
  method : Method
  arg1 : Int
  arg2 : Int
  result : Int
deriving DecidableEq, Repr

/-- A calculator that computes each method by a pure function
`f : Method → Int → Int → Int` and records every call (in order) in its
internal state. Used to observe the exact call sequence `cool_algorithm`
makes. -/
def tracingCalculator (f : Method → Int → Int → Int) :
    I32Calculator (List CallEvent) where
  add s x y := some (f .add x y, s ++ [⟨.add, x, y, f .add x y⟩])
  subtract s x y := some (f .subtract x y, s ++ [⟨.subtract, x, y, f .subtract x y⟩])
  multiply s x y := some (f .multiply x y, s ++ [⟨.multiply, x, y, f .multiply x y⟩])
  divide s x y := some (f .divide x y, s ++ [⟨.divide, x, y, f .divide x y⟩])

/-- Modelled from the spec: the argument matchers of the test double
(mockall's generated `MockI32Calculator` is not part of this repository's
source).  Spec §4.3: "argument matchers for each parameter (exact-value
match or wildcard)". -/
inductive ArgMatcher
  | eq (v : Int)
  | wildcard
deriving DecidableEq, Repr

/-- Whether a matcher accepts an argument. -/
def ArgMatcher.accepts : ArgMatcher → Int → Bool
  | .eq v, x => x = v
  | .wildcard, _ => true

/-- Modelled from the spec: one registered expectation of the test
double (mockall's `MockI32Calculator` is not in this repository's
source).  Spec §4.3: an expectation specifies a call-count constraint
(exact count), argument matchers for each parameter, and the value to
return when matched.  `remaining` is the bookkeeping of how many allowed
calls are left; it starts at `count`. -/
structure Expectation where
  matcher1 : ArgMatcher
  matcher2 : ArgMatcher
  count : Nat
  remaining : Nat
  ret : Int
deriving DecidableEq, Repr

/-- A freshly registered expectation: `remaining` starts at `count`. -/
def Expectation.new (m1 m2 : ArgMatcher) (count : Nat) (ret : Int) :
    Expectation :=
  ⟨m1, m2, count, count, ret⟩

/-- Modelled from the spec: invocation of one method of the test double
against its (registration-ordered) expectation list.  Spec §4.3: "on
each call, the double searches its registered expectations for the
method being called, finds one whose argument matchers accept the given
arguments and whose remaining allowed-call count is greater than zero,
decrements that count, and returns its configured value. If no matching
expectation exists (wrong arguments or count exhausted), the call fails
immediately"; matching is first-match-in-registration-order. -/
def invokeExpectations : List Expectation → Int → Int →
    Option (Int × List Expectation)
  | [], _, _ => none
  | e :: rest, x, y =>
    if e.matcher1.accepts x && e.matcher2.accepts y && 0 < e.remaining then
      some (e.ret, { e with remaining := e.remaining - 1 } :: rest)
    else
      (invokeExpectations rest x y).map (fun p => (p.1, e :: p.2))

/-- Modelled from the spec: the state of the test double, one
registration-ordered expectation list per interface method (spec §4.3,
§9: "a small generic stub object storing a mapping from method name to a
queue of (matcher, remaining-count, return-value) records"). -/
structure MockState where
  addExpectations : List Expectation
  subtractExpectations : List Expectation
  multiplyExpectations : List Expectation
  divideExpectations : List Expectation
deriving DecidableEq, Repr

/-- A fresh test double with no expectations registered. -/
def MockState.new : MockState := ⟨[], [], [], []⟩

/-- Register an expectation for `add` (appended: registration order). -/
def MockState.expectAdd (s : MockState) (e : Expectation) : MockState :=
  { s with addExpectations := s.addExpectations ++ [e] }

/-- Register an expectation for `subtract`. -/
def MockState.expectSubtract (s : MockState) (e : Expectation) : MockState :=
  { s with subtractExpectations := s.subtractExpectations ++ [e] }

/-- Register an expectation for `multiply`. -/
def MockState.expectMultiply (s : MockState) (e : Expectation) : MockState :=
  { s with multiplyExpectations := s.multiplyExpectations ++ [e] }

/-- Register an expectation for `divide`. -/
def MockState.expectDivide (s : MockState) (e : Expectation) : MockState :=
  { s with divideExpectations := s.divideExpectations ++ [e] }

/-- Modelled from the spec: the test double as a calculator
implementation; each method consumes an expectation from its own list or
fails with the "unexpected call" condition (`none`). -/
def MockI32Calculator : I32Calculator MockState where
  add s x y := (invokeExpectations s.addExpectations x y).map
    (fun p => (p.1, { s with addExpectations := p.2 }))
  subtract s x y := (invokeExpectations s.subtractExpectations x y).map
    (fun p => (p.1, { s with subtractExpectations := p.2 }))
  multiply s x y := (invokeExpectations s.multiplyExpectations x y).map
    (fun p => (p.1, { s with multiplyExpectations := p.2 }))
  divide s x y := (invokeExpectations s.divideExpectations x y).map
    (fun p => (p.1, { s with divideExpectations := p.2 }))

/-- An expectation is satisfied when it has been consumed exactly its
configured number of times, i.e. no allowed calls remain. -/
def Expectation.satisfied (e : Expectation) : Bool := e.remaining = 0

/-- Modelled from the spec: verification at teardown (spec §4.3): every
registered expectation must have been consumed exactly its configured
number of times; it passes iff no expectation has calls remaining. -/
def MockState.verify (s : MockState) : Bool :=
  s.addExpectations.all Expectation.satisfied &&
  s.subtractExpectations.all Expectation.satisfied &&
  s.multiplyExpectations.all Expectation.satisfied &&
  s.divideExpectations.all Expectation.satisfied

/-- The mock state configured by the unit test
`tests::cool_algorithm_does_nothing` (src/lib.rs lines 134-173):
exactly one expected call to each method, with exact-value matchers
`add(100, 0) → 100`, `subtract(100, 0) → 100`, `multiply(100, 1) → 100`,
`divide(100, 1) → 100`. -/
def testMockState : MockState :=
  ((((MockState.new).expectAdd
      (Expectation.new (.eq 100) (.eq 0) 1 100)).expectSubtract
      (Expectation.new (.eq 100) (.eq 0) 1 100)).expectMultiply
      (Expectation.new (.eq 100) (.eq 1) 1 100)).expectDivide
      (Expectation.new (.eq 100) (.eq 1) 1 100)

/-- The application built in the unit test: it holds the mock
calculator. -/
def testApplication : Application MockState :=
  ⟨MockI32Calculator⟩

/-- The mock state after the unit test's single `cool_algorithm(100)`
run: each of the four expectations has been consumed exactly once
(`count = 1`, `remaining = 0`). -/
def testMockStateAfter : MockState :=
  ⟨[⟨.eq 100, .eq 0, 1, 0, 100⟩], [⟨.eq 100, .eq 0, 1, 0, 100⟩],
   [⟨.eq 100, .eq 1, 1, 0, 100⟩], [⟨.eq 100, .eq 1, 1, 0, 100⟩]⟩

/-- Claim C1: for every representable `x`, if the injected calculator
computes true integer arithmetic (add returns the sum, subtract the
difference, multiply the product, divide the truncated quotient,
whenever the result is representable), then `cool_algorithm x` returns
`x` (with some final calculator state). -/
theorem cool_algorithm_identity {σ : Type} (c : I32Calculator σ) (x : Int)
    (hx : inI32 x)
    (hadd : ∀ s a b, inI32 (a + b) → ∃ t, c.add s a b = some (a + b, t))
    (hsub : ∀ s a b, inI32 (a - b) → ∃ t, c.subtract s a b = some (a - b, t))
    (hmul : ∀ s a b, inI32 (a * b) → ∃ t, c.multiply s a b = some (a * b, t))
    (hdiv : ∀ s a b, b ≠ 0 → ¬(a = i32Min ∧ b = -1) →
      ∃ t, c.divide s a b = some (Int.tdiv a b, t))
    (s : σ) :
    ∃ t, (Application.mk c).cool_algorithm x s = some (x, t) := by
  obtain ⟨s1, h1⟩ := hadd s x 0 (by simpa using hx)
  obtain ⟨s2, h2⟩ := hsub s1 (x + 0) 0 (by simpa using hx)
  obtain ⟨s3, h3⟩ := hmul s2 (x + 0 - 0) 1 (by simpa using hx)
  obtain ⟨s4, h4⟩ := hdiv s3 ((x + 0 - 0) * 1) 1 one_ne_zero (by
    rintro ⟨-, h⟩
    norm_num at h)
  simp only [add_zero, sub_zero, mul_one, Int.tdiv_one] at h1 h2 h3 h4
  exact ⟨s4, by simp [Application.cool_algorithm, h1, h2, h3, h4]⟩

/-- Witness for claim C1 at `x = 100` with the true-arithmetic
calculator. -/
theorem cool_algorithm_identity_witness :
    ∃ t, (Application.mk trueI32Calculator).cool_algorithm 100 () = some (100, t) :=
  cool_algorithm_identity trueI32Calculator 100 (by decide)
    (fun s a b h => ⟨s, by simp [trueI32Calculator, checkedAdd, h]⟩)
    (fun s a b h => ⟨s, by simp [trueI32Calculator, checkedSub, h]⟩)
    (fun s a b h => ⟨s, by simp [trueI32Calculator, checkedMul, h]⟩)
    (fun s a b hb hm => ⟨s, by simp [trueI32Calculator, checkedDiv, hb, hm]⟩)
    ()

/-- Claim C2: for every `x` and every injected calculator,
`cool_algorithm x` performs exactly four calls in strict sequence —
`add(x, 0)`, then `subtract(output, 0)`, then `multiply(output, 1)`,
then `divide(output, 1)`, each consuming the previous call's result as
its first argument — and returns the final divide call's result, i.e.
`divide (multiply (subtract (add x 0) 0) 1) 1`.  Stated over the
tracing calculator, which computes by an arbitrary pure function `f`
and records every call in order. -/
theorem cool_algorithm_call_sequence (f : Method → Int → Int → Int) (x : Int) :
    (Application.mk (tracingCalculator f)).cool_algorithm x [] =
      some (f .divide (f .multiply (f .subtract (f .add x 0) 0) 1) 1,
        [⟨.add, x, 0, f .add x 0⟩,
         ⟨.subtract, f .add x 0, 0, f .subtract (f .add x 0) 0⟩,
         ⟨.multiply, f .subtract (f .add x 0) 0, 1,
           f .multiply (f .subtract (f .add x 0) 0) 1⟩,
         ⟨.divide, f .multiply (f .subtract (f .add x 0) 0) 1, 1,
           f .divide (f .multiply (f .subtract (f .add x 0) 0) 1) 1⟩]) := by
  rfl

/-- Claim C3: every method of `ExternalI32Calculator`, on any pair of
arguments, fails with the "not callable" panic (`none`) and never
returns a value. -/
theorem externalI32Calculator_never_returns (x y : Int) :
    ExternalI32Calculator.add () x y = none ∧
    ExternalI32Calculator.subtract () x y = none ∧
    ExternalI32Calculator.multiply () x y = none ∧
    ExternalI32Calculator.divide () x y = none :=
  ⟨rfl, rfl, rfl, rfl⟩

/-- Claim C4: with the unit test's mock — one expected call per method,
`add(100,0)→100`, `subtract(100,0)→100`, `multiply(100,1)→100`,
`divide(100,1)→100` — `cool_algorithm 100` succeeds, returns `100`, and
consumes each of the four expectations exactly once (each ends with
`count = 1`, `remaining = 0`), so verification passes. -/
theorem cool_algorithm_unit_test :
    testApplication.cool_algorithm 100 testMockState = some (100, testMockStateAfter) ∧
    (∀ e ∈ testMockStateAfter.addExpectations ++ testMockStateAfter.subtractExpectations ++
        testMockStateAfter.multiplyExpectations ++ testMockStateAfter.divideExpectations,
      e.count = 1 ∧ e.remaining = 0) ∧
    testMockStateAfter.verify = true := by
  decide

/-- Claim C5: matching proceeds in registration order: if no earlier
registered expectation both accepts the arguments and has calls
remaining, and `e` accepts them with calls remaining, then `e` is the
expectation consumed — the call returns `e`'s configured value,
decrements only `e`'s remaining count, and leaves every other
expectation (in particular any earlier, non-matching one) untouched and
still pending. -/
theorem invokeExpectations_first_match (pre rest : List Expectation)
    (e : Expectation) (x y : Int)
    (hpre : ∀ d ∈ pre, ¬(d.matcher1.accepts x = true ∧
      d.matcher2.accepts y = true ∧ 0 < d.remaining))
    (he1 : e.matcher1.accepts x = true) (he2 : e.matcher2.accepts y = true)
    (he3 : 0 < e.remaining) :
    invokeExpectations (pre ++ e :: rest) x y =
      some (e.ret, pre ++ { e with remaining := e.remaining - 1 } :: rest) := by
  induction pre with
  | nil => simp [invokeExpectations, he1, he2, he3]
  | cons d ds ih =>
    have hd := hpre d (List.mem_cons_self d ds)
    have hcond : (d.matcher1.accepts x && d.matcher2.accepts y &&
        decide (0 < d.remaining)) = false := by
      rcases Nat.eq_zero_or_pos d.remaining with h3 | h3
      · simp [h3]
      cases h1 : d.matcher1.accepts x
      · simp
      cases h2 : d.matcher2.accepts y
      · simp
      · exact absurd ⟨h1, h2, h3⟩ hd
    have ihr := ih (fun d hdm => hpre d (List.mem_cons_of_mem _ hdm))
    simp [invokeExpectations, hcond, ihr]

/-- Witness for claim C5: two expectations for one method with different
exact-value matchers; arguments `(3, 4)` match only the second, so the
call returns the second's value `20` and the first stays pending with
its full count. -/
theorem invokeExpectations_first_match_witness :
    invokeExpectations
      [Expectation.new (.eq 1) (.eq 2) 1 10, Expectation.new (.eq 3) (.eq 4) 1 20] 3 4 =
      some (20, [Expectation.new (.eq 1) (.eq 2) 1 10, ⟨.eq 3, .eq 4, 1, 0, 20⟩]) := by
  have h := invokeExpectations_first_match [Expectation.new (.eq 1) (.eq 2) 1 10] []
    (Expectation.new (.eq 3) (.eq 4) 1 20) 3 4 (by decide) (by decide) (by decide) (by decide)
  simpa using h

/-- Claim C6: after `cool_algorithm 100` has consumed every expectation
of the unit test's mock, a second invocation fails at the very first
method call — `add` finds no live expectation and raises the
"unexpected call" condition (`none`) — so the whole second
`cool_algorithm` run fails rather than returning a value. -/
theorem cool_algorithm_second_call_unexpected :
    testApplication.cool_algorithm 100 testMockState = some (100, testMockStateAfter) ∧
    MockI32Calculator.add testMockStateAfter 100 0 = none ∧
    testApplication.cool_algorithm 100 testMockStateAfter = none := by
  decide

/-- Claim C7: mock verification passes iff every registered expectation,
on every method, has been consumed exactly its configured number of
times — i.e. has no allowed calls remaining; if any expectation was
invoked fewer times than configured (in particular never invoked, so
`remaining = count > 0`), verification fails. -/
theorem verify_iff_all_consumed (s : MockState) :
    s.verify = true ↔
      ∀ e ∈ s.addExpectations ++ s.subtractExpectations ++
          s.multiplyExpectations ++ s.divideExpectations,
        e.remaining = 0 := by
  simp only [MockState.verify, Bool.and_eq_true, List.all_eq_true,
    Expectation.satisfied, decide_eq_true_eq, List.mem_append]
  constructor
  · rintro ⟨⟨⟨ha, hs⟩, hm⟩, hd⟩ e he
    rcases he with (((h | h) | h) | h)
    · exact ha e h
    · exact hs e h
    · exact hm e h
    · exact hd e h
  · intro h
    exact ⟨⟨⟨fun e he => h e (by tauto), fun e he => h e (by tauto)⟩,
      fun e he => h e (by tauto)⟩, fun e he => h e (by tauto)⟩

/-- Claim C8: with the true-arithmetic `i32` calculator, no step of
`cool_algorithm` can overflow or trap for any representable `x`
(including `i32::MIN` and `i32::MAX`): `x + 0`, `x - 0`, `x * 1` stay in
range and the divisor of the division step is the constant `1` (never
`0`, never `-1` paired with `i32::MIN`), so every checked operation
returns a value and the whole run succeeds with result `x`. -/
theorem cool_algorithm_no_overflow (x : Int) (hx : inI32 x) :
    checkedAdd x 0 = some x ∧ checkedSub x 0 = some x ∧
    checkedMul x 1 = some x ∧ checkedDiv x 1 = some x ∧
    (Application.mk trueI32Calculator).cool_algorithm x () = some (x, ()) := by
  have h1 : checkedAdd x 0 = some x := by simp [checkedAdd, hx]
  have h2 : checkedSub x 0 = some x := by simp [checkedSub, hx]
  have h3 : checkedMul x 1 = some x := by simp [checkedMul, hx]
  have h4 : checkedDiv x 1 = some x := by norm_num [checkedDiv, Int.tdiv_one]
  refine ⟨h1, h2, h3, h4, ?_⟩
  simp [Application.cool_algorithm, trueI32Calculator, h1, h2, h3, h4]

/-- Witness for claim C8 at the extreme input `x = i32::MIN`. -/
theorem cool_algorithm_no_overflow_witness :
    checkedAdd i32Min 0 = some i32Min ∧ checkedSub i32Min 0 = some i32Min ∧
    checkedMul i32Min 1 = some i32Min ∧ checkedDiv i32Min 1 = some i32Min ∧
    (Application.mk trueI32Calculator).cool_algorithm i32Min () = some (i32Min, ()) :=
  cool_algorithm_no_overflow i32Min (by decide)

/-- Claim C9: for every input `x` and every injected calculator whose
four methods are total (always return a value), `cool_algorithm x`
terminates with a value: the body is a straight-line sequence of exactly
four calls, so totality of the methods gives totality of the whole. -/
theorem cool_algorithm_total {σ : Type} (c : I32Calculator σ) (x : Int) (s : σ)
    (htotal : ∀ u a b, (c.add u a b).isSome = true ∧ (c.subtract u a b).isSome = true ∧
      (c.multiply u a b).isSome = true ∧ (c.divide u a b).isSome = true) :
    ((Application.mk c).cool_algorithm x s).isSome = true := by
  obtain ⟨⟨r1, s1⟩, h1⟩ := Option.isSome_iff_exists.mp (htotal s x 0).1
  obtain ⟨⟨r2, s2⟩, h2⟩ := Option.isSome_iff_exists.mp (htotal s1 r1 0).2.1
  obtain ⟨⟨r3, s3⟩, h3⟩ := Option.isSome_iff_exists.mp (htotal s2 r2 1).2.2.1
  obtain ⟨⟨r4, s4⟩, h4⟩ := Option.isSome_iff_exists.mp (htotal s3 r3 1).2.2.2
  simp [Application.cool_algorithm, h1, h2, h3, h4]

/-- Witness for claim C9: a concrete total calculator (the tracing
calculator over the constant-zero function) at `x = 5`. -/
theorem cool_algorithm_total_witness :
    ((Application.mk (tracingCalculator (fun _ _ _ => 0))).cool_algorithm 5 []).isSome = true :=
  cool_algorithm_total (tracingCalculator (fun _ _ _ => 0)) 5 []
    (fun _ _ _ => ⟨rfl, rfl, rfl, rfl⟩)

/-- Translation of `cool_algorithm` with the borrow of `self` made
explicit: the Rust method takes `&self`, so each of the four statements
reads `self.i32_calculator` and cannot replace the application; the
threaded semantics carries the application value through and returns it
alongside the result. -/
def Application.cool_algorithm_threaded (app : Application σ) (x : Int) (s : σ) :
    Option (Application σ × Int × σ) := do
  let self := app
  let output := x
  let (output, s) ← self.i32_calculator.add s output 0
  let (output, s) ← self.i32_calculator.subtract s output 0
  let (output, s) ← self.i32_calculator.multiply s output 1
  let (output, s) ← self.i32_calculator.divide s output 1
  pure (self, output, s)

/-- Claim C10: invoking `cool_algorithm` never modifies or replaces the
application's `i32_calculator` field or any other application state: the
threaded semantics returns the application unchanged alongside
`cool_algorithm`'s result, and the result depends only on the
`i32_calculator` field (the only state that changes is the injected
implementation's internal state `σ`). -/
theorem cool_algorithm_frame {σ : Type} (app : Application σ) (x : Int) (s : σ) :
    app.cool_algorithm_threaded x s =
      (app.cool_algorithm x s).map (fun p => (app, p.1, p.2)) ∧
    (Application.mk app.i32_calculator).cool_algorithm x s = app.cool_algorithm x s := by
  constructor
  · rcases h1 : app.i32_calculator.add s x 0 with _ | ⟨r1, s1⟩
    · simp [Application.cool_algorithm_threaded, Application.cool_algorithm, h1]
    rcases h2 : app.i32_calculator.subtract s1 r1 0 with _ | ⟨r2, s2⟩
    · simp [Application.cool_algorithm_threaded, Application.cool_algorithm, h1, h2]
    rcases h3 : app.i32_calculator.multiply s2 r2 1 with _ | ⟨r3, s3⟩
    · simp [Application.cool_algorithm_threaded, Application.cool_algorithm, h1, h2, h3]
    rcases h4 : app.i32_calculator.divide s3 r3 1 with _ | ⟨r4, s4⟩ <;>
      simp [Application.cool_algorithm_threaded, Application.cool_algorithm, h1, h2, h3, h4]
  · cases app
    rfl
